import Mathlib

/-!
Verification of the Twilio / ElevenLabs call-relay server (`src/index.js`).

The server bridges a Twilio media-stream WebSocket ("carrier socket") and an
ElevenLabs conversational-AI WebSocket ("AI socket").  The relay is embedded
here as a state machine: `SessionState` is the per-connection mutable state
(`streamSid`, the AI socket's ready state, and whether the carrier socket is
open), `step` executes one socket event exactly as the handlers in
`src/index.js` do, and `run` folds a list of events, collecting every outgoing
message.  The two interesting HTTP handlers (`/incoming-call-eleven` and
`POST /make-outbound-call`) are embedded as pure functions of their inputs and
of the telephony provider's reply.
-/

namespace CallBot

/-- WebSocket ready states, as in the `ws` library used by `src/index.js`:
a socket starts in `CONNECTING`, moves to `OPEN` when the handshake completes,
to `CLOSING` when `close()` is called while open, and to `CLOSED` once closed
or after an error. -/
inductive ReadyState
  | CONNECTING
  | OPEN
  | CLOSING
  | CLOSED
deriving DecidableEq, Repr

/-- Per-connection state of the `/media-stream` handler (`src/index.js:60-141`):
`streamSid` is the `let streamSid = null` closure variable (line 63), `aiReady`
is `elevenLabsWs.readyState`, and `twilioOpen` records whether the carrier
(Twilio) socket is still open. -/
structure SessionState where
  streamSid : Option String
  aiReady : ReadyState
  twilioOpen : Bool
deriving DecidableEq, Repr

/-- State at the start of a session: `streamSid` is `null`, the ElevenLabs
WebSocket has just been constructed (line 66) so it is `CONNECTING`, and the
Twilio connection that triggered the handler is open. -/
def initialState : SessionState :=
  { streamSid := none, aiReady := ReadyState.CONNECTING, twilioOpen := true }

/-- Parsed messages arriving on the AI (ElevenLabs) socket, keyed on
`message.type` as in `handleElevenLabsMessage` (`src/index.js:75-96`).
`audio` carries `message.audio_event?.audio_base_64` (absent payload is
`none`); `ping` carries `message.ping_event?.event_id`. -/
inductive ElevenLabsMessage
  | conversation_initiation_metadata
  | audio (audio_base_64 : Option String)
  | interruption
  | ping (event_id : Option String)
  | other
deriving DecidableEq, Repr

/-- Parsed messages arriving on the carrier (Twilio) socket, keyed on
`data.event` as in the `connection.on("message")` handler
(`src/index.js:107-129`). -/
inductive TwilioMessage
  | start (streamSid : String)
  | media (payload : String)
  | stop
  | other (event : String)
deriving DecidableEq, Repr

/-- A raw socket frame: either it parses to a message (`JSON.parse` succeeds)
or it is malformed and `JSON.parse` throws, landing in the `catch` branch. -/
inductive Frame (α : Type)
  | parsed (msg : α)
  | malformed
deriving DecidableEq, Repr

/-- Messages the relay sends to the carrier socket:
`media` embeds `\x7bevent: "media", streamSid, media: \x7bpayload\x7d\x7d`
(line 82-84) and `clear` embeds `\x7bevent: "clear", streamSid\x7d` (line 88).
Both carry the current `streamSid`, which may still be `null`. -/
inductive CarrierOut
  | media (streamSid : Option String) (payload : String)
  | clear (streamSid : Option String)
deriving DecidableEq, Repr

/-- Messages the relay sends to the AI socket:
`user_audio_chunk` embeds `\x7buser_audio_chunk: payload\x7d` (line 117) and
`pong` embeds `\x7btype: "pong", event_id\x7d` (line 92). -/
inductive AIOut
  | user_audio_chunk (payload : String)
  | pong (event_id : String)
deriving DecidableEq, Repr

/-- One outgoing send performed by the relay, tagged with its destination
socket. -/
inductive Output
  | toTwilio (m : CarrierOut)
  | toElevenLabs (m : AIOut)
deriving DecidableEq, Repr

/-- `handleElevenLabsMessage` (`src/index.js:75-96`): dispatch on
`message.type`.  The guards `if (message.audio_event?.audio_base_64)`
(line 81) and `if (message.ping_event?.event_id)` (line 91) are JavaScript
truthiness checks, so they fail both when the field is absent and when it is
the empty string (`""` is falsy): an empty payload or event id is dropped.
The handler never mutates `streamSid`, so it returns only the list of sends
it performs. -/
def handleElevenLabsMessage (s : SessionState) (message : ElevenLabsMessage) :
    List Output :=
  match message with
  | ElevenLabsMessage.conversation_initiation_metadata => []
  | ElevenLabsMessage.audio audio_base_64 =>
      match audio_base_64 with
      | some payload =>
          if payload.isEmpty then []
          else [Output.toTwilio (CarrierOut.media s.streamSid payload)]
      | none => []
  | ElevenLabsMessage.interruption => [Output.toTwilio (CarrierOut.clear s.streamSid)]
  | ElevenLabsMessage.ping event_id =>
      match event_id with
      | some eid =>
          if eid.isEmpty then []
          else [Output.toElevenLabs (AIOut.pong eid)]
      | none => []
  | ElevenLabsMessage.other => []

/-- The `connection.on("message")` handler body (`src/index.js:107-129`):
`start` records `data.start.streamSid`; `media` forwards the payload to the AI
socket only when `elevenLabsWs.readyState === WebSocket.OPEN`; `stop` calls
`elevenLabsWs.close()` when the AI socket is open (moving it to `CLOSING`);
anything else is only logged. -/
def handleTwilioMessage (s : SessionState) (data : TwilioMessage) :
    SessionState × List Output :=
  match data with
  | TwilioMessage.start sid => ({ s with streamSid := some sid }, [])
  | TwilioMessage.media payload =>
      if s.aiReady = ReadyState.OPEN then
        (s, [Output.toElevenLabs (AIOut.user_audio_chunk payload)])
      else (s, [])
  | TwilioMessage.stop =>
      if s.aiReady = ReadyState.OPEN then
        ({ s with aiReady := ReadyState.CLOSING }, [])
      else (s, [])
  | TwilioMessage.other _ => (s, [])

/-- Events a session reacts to: frames on either socket, plus the
lifecycle callbacks wired in `src/index.js`: the ElevenLabs socket's `open`,
`close` and `error` events (lines 70-72) and the Twilio connection's `close`
and `error` events (lines 132-140). -/
inductive Event
  | twilioMsg (frame : Frame TwilioMessage)
  | elevenLabsMsg (frame : Frame ElevenLabsMessage)
  | elevenLabsOpen
  | elevenLabsClosed
  | elevenLabsError
  | twilioClose
  | twilioError
deriving DecidableEq, Repr

/-- One step of the session: run the handler `src/index.js` attaches to the
given event.  Malformed frames land in the `catch` blocks (lines 101-103 and
126-128), which only log.  `elevenLabsOpen` is the WebSocket handshake
completing (only effective from `CONNECTING`); `elevenLabsClosed` and
`elevenLabsError` end the AI socket and run handlers that only log, touching
nothing else; `twilioClose` and `twilioError` (lines 132-140) call
`elevenLabsWs.close()` if the AI socket is open. -/
def step (s : SessionState) (e : Event) : SessionState × List Output :=
  match e with
  | Event.twilioMsg (Frame.parsed data) => handleTwilioMessage s data
  | Event.twilioMsg Frame.malformed => (s, [])
  | Event.elevenLabsMsg (Frame.parsed message) => (s, handleElevenLabsMessage s message)
  | Event.elevenLabsMsg Frame.malformed => (s, [])
  | Event.elevenLabsOpen =>
      if s.aiReady = ReadyState.CONNECTING then
        ({ s with aiReady := ReadyState.OPEN }, [])
      else (s, [])
  | Event.elevenLabsClosed => ({ s with aiReady := ReadyState.CLOSED }, [])
  | Event.elevenLabsError => ({ s with aiReady := ReadyState.CLOSED }, [])
  | Event.twilioClose =>
      if s.aiReady = ReadyState.OPEN then
        ({ s with aiReady := ReadyState.CLOSING, twilioOpen := false }, [])
      else ({ s with twilioOpen := false }, [])
  | Event.twilioError =>
      if s.aiReady = ReadyState.OPEN then
        ({ s with aiReady := ReadyState.CLOSING }, [])
      else (s, [])

/-- Run a whole event sequence from a state, collecting every send the relay
performs, in order. -/
def run (s : SessionState) : List Event → SessionState × List Output
  | [] => (s, [])
  | e :: es =>
      ((run (step s e).1 es).1, (step s e).2 ++ (run (step s e).1 es).2)

/-- The `streamSid` recorded by an event, when the event is a well-formed
carrier `start` frame. -/
def startSidOf : Event → Option String
  | Event.twilioMsg (Frame.parsed (TwilioMessage.start sid)) => some sid
  | _ => none

/-- The session identifier carried by the most recent carrier `start` frame of
an event list, if any. -/
def lastStartSid : List Event → Option String
  | [] => none
  | e :: es =>
      match lastStartSid es with
      | some sid => some sid
      | none => startSidOf e

/-- The AI socket is shutting down or gone: `readyState` is `CLOSING` or
`CLOSED`.  Once here, no event can bring it back to `OPEN`. -/
def aiShutdown (s : SessionState) : Prop :=
  s.aiReady = ReadyState.CLOSING ∨ s.aiReady = ReadyState.CLOSED

/-! ### Helper lemmas about `step` and `run` -/

theorem step_streamSid (s : SessionState) (e : Event) :
    (step s e).1.streamSid =
      match startSidOf e with
      | some sid => some sid
      | none => s.streamSid := by
  cases e with
  | twilioMsg f =>
      cases f with
      | parsed d =>
          cases d with
          | start sid => rfl
          | media p => simp only [step, handleTwilioMessage, startSidOf]; split <;> rfl
          | stop => simp only [step, handleTwilioMessage, startSidOf]; split <;> rfl
          | other v => rfl
      | malformed => rfl
  | elevenLabsMsg f => cases f <;> rfl
  | elevenLabsOpen => simp only [step, startSidOf]; split <;> rfl
  | elevenLabsClosed => rfl
  | elevenLabsError => rfl
  | twilioClose => simp only [step, startSidOf]; split <;> rfl
  | twilioError => simp only [step, startSidOf]; split <;> rfl

theorem run_streamSid (es : List Event) (s : SessionState) :
    (run s es).1.streamSid =
      match lastStartSid es with
      | some sid => some sid
      | none => s.streamSid := by
  induction es generalizing s with
  | nil => rfl
  | cons e es ih =>
      show (run (step s e).1 es).1.streamSid = _
      rw [ih, step_streamSid]
      simp only [lastStartSid]
      cases lastStartSid es <;> cases startSidOf e <;> rfl

theorem step_preserves_aiShutdown (s : SessionState) (e : Event)
    (h : aiShutdown s) : aiShutdown (step s e).1 := by
  have hno : s.aiReady ≠ ReadyState.OPEN := by
    rcases h with h | h <;> simp [h]
  have hnc : s.aiReady ≠ ReadyState.CONNECTING := by
    rcases h with h | h <;> simp [h]
  cases e with
  | twilioMsg f =>
      cases f with
      | parsed d =>
          cases d with
          | start sid => exact h
          | media p =>
              simpa only [step, handleTwilioMessage, if_neg hno] using h
          | stop =>
              simpa only [step, handleTwilioMessage, if_neg hno] using h
          | other v => exact h
      | malformed => exact h
  | elevenLabsMsg f => cases f <;> exact h
  | elevenLabsOpen =>
      simpa only [step, if_neg hnc] using h
  | elevenLabsClosed => exact Or.inr rfl
  | elevenLabsError => exact Or.inr rfl
  | twilioClose =>
      simp only [step, if_neg hno]
      exact h
  | twilioError =>
      simpa only [step, if_neg hno] using h

theorem step_no_chunk_of_aiShutdown (s : SessionState) (e : Event)
    (h : aiShutdown s) (payload : String) :
    Output.toElevenLabs (AIOut.user_audio_chunk payload) ∉ (step s e).2 := by
  have hno : s.aiReady ≠ ReadyState.OPEN := by
    rcases h with h | h <;> simp [h]
  cases e with
  | twilioMsg f =>
      cases f with
      | parsed d =>
          cases d with
          | start sid => simp [step, handleTwilioMessage]
          | media p => simp [step, handleTwilioMessage, if_neg hno]
          | stop => simp [step, handleTwilioMessage, if_neg hno]
          | other v => simp [step, handleTwilioMessage]
      | malformed => simp [step]
  | elevenLabsMsg f =>
      cases f with
      | parsed m =>
          cases m with
          | conversation_initiation_metadata => simp [step, handleElevenLabsMessage]
          | audio b =>
              cases b with
              | none => simp [step, handleElevenLabsMessage]
              | some p =>
                  simp only [step, handleElevenLabsMessage]
                  split <;> simp
          | interruption => simp [step, handleElevenLabsMessage]
          | ping eid =>
              cases eid with
              | none => simp [step, handleElevenLabsMessage]
              | some eid =>
                  simp only [step, handleElevenLabsMessage]
                  split <;> simp
          | other => simp [step, handleElevenLabsMessage]
      | malformed => simp [step]
  | elevenLabsOpen => simp only [step]; split <;> simp
  | elevenLabsClosed => simp [step]
  | elevenLabsError => simp [step]
  | twilioClose => simp only [step]; split <;> simp
  | twilioError => simp only [step]; split <;> simp

theorem run_no_chunk_of_aiShutdown (es : List Event) (s : SessionState)
    (h : aiShutdown s) (payload : String) :
    Output.toElevenLabs (AIOut.user_audio_chunk payload) ∉ (run s es).2 := by
  induction es generalizing s with
  | nil => simp [run]
  | cons e es ih =>
      show Output.toElevenLabs (AIOut.user_audio_chunk payload) ∉
        (step s e).2 ++ (run (step s e).1 es).2
      rw [List.mem_append]
      push_neg
      exact ⟨step_no_chunk_of_aiShutdown s e h payload,
        ih (step s e).1 (step_preserves_aiShutdown s e h)⟩

/-! ### HTTP handlers -/

/-- JavaScript truthiness of the optional string field `to`: `!to` is `true`
when the field is absent (`undefined`/`null`) and also when it is the empty
string, since `""` is falsy in JavaScript. -/
def isFalsy : Option String → Bool
  | none => true
  | some s => s.isEmpty

/-- The identifier-bearing result of `twilioClient.calls.create`
(`call.sid`, `src/index.js:150-156`). -/
structure TwilioCallResult where
  sid : String
deriving DecidableEq, Repr

/-- A JSON body sent by the `/make-outbound-call` handler: either an error
object or the success object carrying `message` and `callSid`. -/
inductive ResponseBody
  | errorBody (error : String)
  | callInitiated (message : String) (callSid : String)
deriving DecidableEq, Repr

/-- The `POST /make-outbound-call` handler (`src/index.js:145-161`), as a
function of the request body's `to` field and of the outcome of the provider
call `twilioClient.calls.create` (`Except.error ()` when the awaited promise
rejects).  The result pairs the HTTP response (status code and body) with a
flag recording whether the provider call was attempted at all: the early
`return` on `!to` (line 147) replies 400 before the `try` block runs. -/
def makeOutboundCall (toNumber : Option String) (create : Except Unit TwilioCallResult) :
    (Nat × ResponseBody) × Bool :=
  if isFalsy toNumber then
    ((400, ResponseBody.errorBody "Destination phone number is required"), false)
  else
    match create with
    | Except.ok call => ((200, ResponseBody.callInitiated "Call initiated" call.sid), true)
    | Except.error _ => ((500, ResponseBody.errorBody "Failed to initiate call"), true)

/-- The regex replacement `BASE_URL.replace(/^https?:\/\//, "")`
(`src/index.js:51`): strip a leading `http://` or `https://` scheme, if
present. -/
def stripHttpScheme (s : String) : String :=
  if s.startsWith "https://" then s.drop 8
  else if s.startsWith "http://" then s.drop 7
  else s

/-- An HTTP reply: the content type set via `reply.type(...)` (if any) and the
body string. -/
structure HttpReply where
  contentType : Option String
  body : String
deriving DecidableEq, Repr

/-- The `<Stream .../>` element embedded in the TwiML document: it points the
carrier at the `wss://<host>/media-stream` socket endpoint. -/
def streamElement (baseUrl : String) : String :=
  "<Stream url=\"wss://" ++ stripHttpScheme baseUrl ++ "/media-stream\" />"

/-- Text of the TwiML template literal before the `<Stream>` element
(`src/index.js:48-50`, newlines and indentation as in the source). -/
def twimlHead : String :=
  "<?xml version=\"1.0\" encoding=\"UTF-8\"?>\n    <Response>\n      <Connect>\n        "

/-- Text of the TwiML template literal after the `<Stream>` element
(`src/index.js:52-53`). -/
def twimlTail : String :=
  "\n      </Connect>\n    </Response>"

/-- The `fastify.all("/incoming-call-eleven", ...)` handler
(`src/index.js:47-56`).  The route is registered for every HTTP method, and
the handler reads nothing from the request and mutates nothing, so it is a
pure function of the configured `BASE_URL` and of the (ignored) request method
and body; the reply is the TwiML template (split here around its interpolated
`<Stream>` element) with content type `text/xml`. -/
def incomingCallEleven (baseUrl : String) (_method : String) (_reqBody : String) :
    HttpReply :=
  { contentType := some "text/xml"
  , body := twimlHead ++ streamElement baseUrl ++ twimlTail }

/-- The `aiReady` field after the relay processes a carrier `stop` frame:
`elevenLabsWs.close()` moves an `OPEN` socket to `CLOSING`; in every other
ready state the frame leaves the socket untouched. -/
theorem stop_step_aiReady (s : SessionState) :
    (step s (Event.twilioMsg (Frame.parsed TwilioMessage.stop))).1.aiReady =
      if s.aiReady = ReadyState.OPEN then ReadyState.CLOSING else s.aiReady := by
  show (handleTwilioMessage s TwilioMessage.stop).1.aiReady = _
  by_cases h : s.aiReady = ReadyState.OPEN <;> simp [handleTwilioMessage, h]

/-! ### Claim theorems -/

/-- Counterexample to C1: an `audio` message whose `audio_base_64` payload is
present but equal to the empty string is dropped — the truthiness guard
`if (message.audio_event?.audio_base_64)` (line 81) fails on the falsy `""` —
even though a `start` frame has recorded a session identifier, so no carrier
`media` message is emitted for that present payload. -/
theorem present_empty_audio_payload_not_forwarded :
    step (run initialState
          [Event.twilioMsg (Frame.parsed (TwilioMessage.start "MZ123"))]).1
        (Event.elevenLabsMsg (Frame.parsed (ElevenLabsMessage.audio (some ""))))
      = ((run initialState
          [Event.twilioMsg (Frame.parsed (TwilioMessage.start "MZ123"))]).1,
         []) := by decide

/-- C1 (amended): for every AI-socket `audio` message whose `audio_base_64`
payload is present and non-empty (JavaScript-truthy), the relay performs
exactly one send, to the carrier socket, of a `media` message carrying that
payload and tagged with the `streamSid` recorded from the most recent carrier
`start` frame of the session's history; a present but empty payload is
dropped by the truthiness guard. -/
theorem audio_forwarded_as_media_with_last_start_sid
    (es : List Event) (sid payload : String)
    (h : lastStartSid es = some sid) (hp : payload.isEmpty = false) :
    step (run initialState es).1
        (Event.elevenLabsMsg (Frame.parsed (ElevenLabsMessage.audio (some payload))))
      = ((run initialState es).1,
         [Output.toTwilio (CarrierOut.media (some sid) payload)]) := by
  have hsid : (run initialState es).1.streamSid = some sid := by
    rw [run_streamSid, h]
  show ((run initialState es).1,
      handleElevenLabsMessage (run initialState es).1
        (ElevenLabsMessage.audio (some payload))) = _
  simp [handleElevenLabsMessage, hsid, hp]

/-- Witness for C1 (amended): after a `start` frame with sid `MZ123`, an AI
`audio` message with the non-empty payload `b64` is forwarded as exactly one
carrier `media` message tagged `MZ123`. -/
theorem audio_forwarded_as_media_with_last_start_sid_witness :
    lastStartSid [Event.twilioMsg (Frame.parsed (TwilioMessage.start "MZ123"))]
        = some "MZ123" ∧
    ("b64" : String).isEmpty = false ∧
    step (run initialState
          [Event.twilioMsg (Frame.parsed (TwilioMessage.start "MZ123"))]).1
        (Event.elevenLabsMsg (Frame.parsed (ElevenLabsMessage.audio (some "b64"))))
      = ((run initialState
          [Event.twilioMsg (Frame.parsed (TwilioMessage.start "MZ123"))]).1,
         [Output.toTwilio (CarrierOut.media (some "MZ123") "b64")]) :=
  ⟨rfl, rfl, audio_forwarded_as_media_with_last_start_sid
    [Event.twilioMsg (Frame.parsed (TwilioMessage.start "MZ123"))] "MZ123" "b64"
    rfl rfl⟩

/-- Counterexample to C2: a `ping` message whose `ping_event.event_id` is
present but equal to the empty string gets no `pong` — the truthiness guard
`if (message.ping_event?.event_id)` (line 91) fails on the falsy `""` — so
nothing at all is sent in response. -/
theorem present_empty_ping_event_id_unanswered :
    step initialState
        (Event.elevenLabsMsg (Frame.parsed (ElevenLabsMessage.ping (some ""))))
      = (initialState, []) := by decide

/-- C2 (amended): for every AI-socket `ping` message carrying a non-empty
(JavaScript-truthy) `event_id`, the relay performs exactly one send: a `pong`
with the identical `event_id`, back to the AI socket; in particular nothing
goes to the carrier socket, and the session state is untouched.  A present
but empty `event_id` is dropped by the truthiness guard. -/
theorem ping_with_truthy_id_answered_by_matching_pong (s : SessionState)
    (eid : String) (h : eid.isEmpty = false) :
    step s (Event.elevenLabsMsg (Frame.parsed (ElevenLabsMessage.ping (some eid))))
      = (s, [Output.toElevenLabs (AIOut.pong eid)]) := by
  show (s, handleElevenLabsMessage s (ElevenLabsMessage.ping (some eid))) = _
  simp [handleElevenLabsMessage, h]

/-- Witness for C2 (amended): a ping with the non-empty `event_id` `evt1` is
answered by exactly one matching pong. -/
theorem ping_with_truthy_id_answered_by_matching_pong_witness :
    ("evt1" : String).isEmpty = false ∧
    step initialState
        (Event.elevenLabsMsg (Frame.parsed (ElevenLabsMessage.ping (some "evt1"))))
      = (initialState, [Output.toElevenLabs (AIOut.pong "evt1")]) :=
  ⟨rfl, ping_with_truthy_id_answered_by_matching_pong initialState "evt1" rfl⟩

/-- Counterexample to C3: if the carrier `stop` frame arrives while the AI
socket is still `CONNECTING` (so the `readyState === OPEN` guard on line 121
fails and `close()` is never called), and the AI socket's handshake completes
afterwards, a carrier `media` frame received after the `stop` IS forwarded to
the AI socket. -/
theorem media_after_stop_forwarded_when_ai_opens_late :
    (run initialState
        [Event.twilioMsg (Frame.parsed TwilioMessage.stop),
         Event.elevenLabsOpen,
         Event.twilioMsg (Frame.parsed (TwilioMessage.media "chunk"))]).2
      = [Output.toElevenLabs (AIOut.user_audio_chunk "chunk")] := by decide

/-- C3 (amended): when a carrier `stop` frame arrives, the AI socket is closed
if it was open at that moment; and provided the AI socket was no longer
`CONNECTING` when the `stop` arrived, no carrier `media` frame received after
the `stop` is ever forwarded to the AI socket. -/
theorem stop_closes_ai_and_blocks_media_once_connected
    (es : List Event)
    (h : (run initialState es).1.aiReady ≠ ReadyState.CONNECTING) :
    ((run initialState es).1.aiReady = ReadyState.OPEN →
      (step (run initialState es).1
          (Event.twilioMsg (Frame.parsed TwilioMessage.stop))).1.aiReady
        = ReadyState.CLOSING) ∧
    ∀ (tail : List Event) (payload : String),
      Output.toElevenLabs (AIOut.user_audio_chunk payload) ∉
        (run (step (run initialState es).1
            (Event.twilioMsg (Frame.parsed TwilioMessage.stop))).1 tail).2 := by
  have hsd : aiShutdown
      (step (run initialState es).1
        (Event.twilioMsg (Frame.parsed TwilioMessage.stop))).1 := by
    show _ ∨ _
    rw [stop_step_aiReady]
    cases hs : (run initialState es).1.aiReady with
    | CONNECTING => exact absurd hs h
    | OPEN => simp
    | CLOSING => simp
    | CLOSED => simp
  refine ⟨fun hopen => ?_, fun tail payload =>
    run_no_chunk_of_aiShutdown tail _ hsd payload⟩
  rw [stop_step_aiReady, if_pos hopen]

/-- Witness for C3 (amended): with the AI socket open, a `stop` moves it to
`CLOSING` and a `media` frame arriving afterwards is not forwarded. -/
theorem stop_closes_ai_and_blocks_media_once_connected_witness :
    (run initialState [Event.elevenLabsOpen]).1.aiReady ≠ ReadyState.CONNECTING ∧
    Output.toElevenLabs (AIOut.user_audio_chunk "chunk") ∉
      (run (step (run initialState [Event.elevenLabsOpen]).1
          (Event.twilioMsg (Frame.parsed TwilioMessage.stop))).1
        [Event.twilioMsg (Frame.parsed (TwilioMessage.media "chunk"))]).2 :=
  ⟨by decide,
   (stop_closes_ai_and_blocks_media_once_connected [Event.elevenLabsOpen]
      (by decide)).2
     [Event.twilioMsg (Frame.parsed (TwilioMessage.media "chunk"))] "chunk"⟩

/-- C4: lifecycle coupling is asymmetric.  A `close` or `error` event on the
carrier socket closes an open AI socket (it moves to `CLOSING`), while a
`close` or `error` on the AI socket leaves the carrier socket's open flag
exactly as it was and sends nothing — the carrier side may remain open after
AI-socket teardown. -/
theorem carrier_close_closes_ai_but_not_conversely (s : SessionState)
    (h : s.aiReady = ReadyState.OPEN) :
    (step s Event.twilioClose).1.aiReady = ReadyState.CLOSING ∧
    (step s Event.twilioError).1.aiReady = ReadyState.CLOSING ∧
    (step s Event.elevenLabsClosed).1.twilioOpen = s.twilioOpen ∧
    (step s Event.elevenLabsError).1.twilioOpen = s.twilioOpen ∧
    (step s Event.elevenLabsClosed).2 = [] ∧
    (step s Event.elevenLabsError).2 = [] := by
  refine ⟨?_, ?_, rfl, rfl, rfl, rfl⟩ <;> simp [step, if_pos h]

/-- Witness for C4 at a session with an open AI socket and open carrier
socket. -/
theorem carrier_close_closes_ai_but_not_conversely_witness :
    ({ streamSid := none, aiReady := ReadyState.OPEN, twilioOpen := true } :
        SessionState).aiReady = ReadyState.OPEN ∧
    ((step { streamSid := none, aiReady := ReadyState.OPEN, twilioOpen := true }
        Event.twilioClose).1.aiReady = ReadyState.CLOSING ∧
     (step { streamSid := none, aiReady := ReadyState.OPEN, twilioOpen := true }
        Event.twilioError).1.aiReady = ReadyState.CLOSING ∧
     (step { streamSid := none, aiReady := ReadyState.OPEN, twilioOpen := true }
        Event.elevenLabsClosed).1.twilioOpen =
       ({ streamSid := none, aiReady := ReadyState.OPEN, twilioOpen := true } :
          SessionState).twilioOpen ∧
     (step { streamSid := none, aiReady := ReadyState.OPEN, twilioOpen := true }
        Event.elevenLabsError).1.twilioOpen =
       ({ streamSid := none, aiReady := ReadyState.OPEN, twilioOpen := true } :
          SessionState).twilioOpen ∧
     (step { streamSid := none, aiReady := ReadyState.OPEN, twilioOpen := true }
        Event.elevenLabsClosed).2 = [] ∧
     (step { streamSid := none, aiReady := ReadyState.OPEN, twilioOpen := true }
        Event.elevenLabsError).2 = []) :=
  ⟨rfl, carrier_close_closes_ai_but_not_conversely
    { streamSid := none, aiReady := ReadyState.OPEN, twilioOpen := true } rfl⟩

/-- C5: a carrier `media` frame is forwarded to the AI socket as a
`user_audio_chunk` exactly when the AI socket's ready state is `OPEN` at that
moment; otherwise it is silently dropped — no send on either socket and the
session state unchanged. -/
theorem media_forwarded_iff_ai_open (s : SessionState) (payload : String) :
    step s (Event.twilioMsg (Frame.parsed (TwilioMessage.media payload)))
      = (s, if s.aiReady = ReadyState.OPEN
            then [Output.toElevenLabs (AIOut.user_audio_chunk payload)]
            else []) := by
  show handleTwilioMessage s (TwilioMessage.media payload) = _
  by_cases h : s.aiReady = ReadyState.OPEN <;> simp [handleTwilioMessage, h]

/-- C6: a malformed frame on either socket is discarded: no send on either
socket, and the session state — `streamSid` and both sockets' states — is
exactly what it was. -/
theorem malformed_frames_discarded_without_effect (s : SessionState) :
    step s (Event.twilioMsg Frame.malformed) = (s, []) ∧
    step s (Event.elevenLabsMsg Frame.malformed) = (s, []) :=
  ⟨rfl, rfl⟩

/-- C7: an AI-socket `audio` message whose `audio_base_64` payload is absent
produces no send on either socket and leaves the session state unchanged. -/
theorem audio_without_payload_ignored (s : SessionState) :
    step s (Event.elevenLabsMsg (Frame.parsed (ElevenLabsMessage.audio none)))
      = (s, []) := rfl

/-- Counterexample to C8: with `to` present but equal to the empty string, the
handler still replies 400 without attempting a provider call (the JavaScript
guard `!to` is truthiness, not absence), contradicting "exactly when the `to`
field is absent". -/
theorem empty_to_field_rejected_despite_presence :
    (makeOutboundCall (some "") (Except.ok ⟨"CA123"⟩)).1.1 = 400 ∧
    (makeOutboundCall (some "") (Except.ok ⟨"CA123"⟩)).2 = false ∧
    (some "" : Option String) ≠ none :=
  ⟨rfl, rfl, Option.some_ne_none ""⟩

/-- C8 (amended): `POST /make-outbound-call` replies
`400 Destination phone number is required` and attempts no provider call
exactly when the `to` field is JavaScript-falsy (absent or the empty string);
otherwise the provider call is attempted and its success yields
`200 Call initiated` with the provider-assigned call sid, while its failure
yields `500 Failed to initiate call` with no retry. -/
theorem make_outbound_call_contract (toNumber : Option String)
    (create : Except Unit TwilioCallResult) :
    (isFalsy toNumber = true →
      makeOutboundCall toNumber create
        = ((400, ResponseBody.errorBody "Destination phone number is required"),
           false)) ∧
    (isFalsy toNumber = false →
      ∀ call, create = Except.ok call →
        makeOutboundCall toNumber create
          = ((200, ResponseBody.callInitiated "Call initiated" call.sid), true)) ∧
    (isFalsy toNumber = false → create = Except.error () →
      makeOutboundCall toNumber create
        = ((500, ResponseBody.errorBody "Failed to initiate call"), true)) ∧
    ((makeOutboundCall toNumber create).2 = false ↔ isFalsy toNumber = true) := by
  refine ⟨fun h => ?_, fun h call hc => ?_, fun h hc => ?_, ?_⟩
  · simp [makeOutboundCall, h]
  · subst hc; simp [makeOutboundCall, h]
  · subst hc; simp [makeOutboundCall, h]
  · by_cases h : isFalsy toNumber = true
    · simp [makeOutboundCall, h]
    · cases create <;> simp [makeOutboundCall, h]

/-- Witness for C8 (amended): a well-formed number and a provider that
assigns sid `CA123` produce `200 Call initiated` with `callSid = CA123`. -/
theorem make_outbound_call_contract_witness :
    isFalsy (some "+15551234567") = false ∧
    makeOutboundCall (some "+15551234567") (Except.ok ⟨"CA123"⟩)
      = ((200, ResponseBody.callInitiated "Call initiated" "CA123"), true) :=
  ⟨rfl, (make_outbound_call_contract (some "+15551234567")
    (Except.ok ⟨"CA123"⟩)).2.1 rfl ⟨"CA123"⟩ rfl⟩

/-- C9: every request to `/incoming-call-eleven`, whatever its method or body,
gets the same reply: content type `text/xml` and a document containing a
`<Stream url="wss://<host>/media-stream" />` element pointing at the
media-stream socket endpoint.  The handler is a pure function of the
configured base URL, so it has no side effects. -/
theorem incoming_call_eleven_uniform_xml_stream
    (baseUrl method reqBody method2 reqBody2 : String) :
    incomingCallEleven baseUrl method reqBody
        = incomingCallEleven baseUrl method2 reqBody2 ∧
    (incomingCallEleven baseUrl method reqBody).contentType = some "text/xml" ∧
    ∃ pre post, (incomingCallEleven baseUrl method reqBody).body
      = pre ++ ("<Stream url=\"wss://" ++ stripHttpScheme baseUrl
          ++ "/media-stream\" />") ++ post :=
  ⟨rfl, rfl, twimlHead, twimlTail, by
    simp [incomingCallEleven, streamElement, String.append_assoc]⟩

/-- Counterexample to C10: before any `start` frame, an `audio` message whose
payload is present but equal to the empty string produces no `media` send at
all — the truthiness guard at line 81 drops the falsy `""` — so the claim's
audio half fails for that present payload. -/
theorem pre_start_empty_audio_payload_not_sent :
    step initialState
        (Event.elevenLabsMsg (Frame.parsed (ElevenLabsMessage.audio (some ""))))
      = (initialState, []) := by decide

/-- C10 (amended): if an `interruption` (or an `audio` with a non-empty,
JavaScript-truthy payload) arrives from the AI socket before any carrier
`start` frame has been received, the relay still sends the `clear`
(respectively `media`) message to the carrier socket, with its `streamSid`
equal to `null`: the sends are not guarded on the session identifier having
been set.  A present but empty audio payload is dropped by the truthiness
guard, not by any `streamSid` check. -/
theorem pre_start_sends_carry_null_sid (es : List Event)
    (h : lastStartSid es = none) (payload : String)
    (hp : payload.isEmpty = false) :
    step (run initialState es).1
        (Event.elevenLabsMsg (Frame.parsed ElevenLabsMessage.interruption))
      = ((run initialState es).1, [Output.toTwilio (CarrierOut.clear none)]) ∧
    step (run initialState es).1
        (Event.elevenLabsMsg (Frame.parsed (ElevenLabsMessage.audio (some payload))))
      = ((run initialState es).1,
         [Output.toTwilio (CarrierOut.media none payload)]) := by
  have hsid : (run initialState es).1.streamSid = none := by
    rw [run_streamSid, h]
    rfl
  constructor
  · show ((run initialState es).1,
      handleElevenLabsMessage (run initialState es).1
        ElevenLabsMessage.interruption) = _
    simp [handleElevenLabsMessage, hsid]
  · show ((run initialState es).1,
      handleElevenLabsMessage (run initialState es).1
        (ElevenLabsMessage.audio (some payload))) = _
    simp [handleElevenLabsMessage, hsid, hp]

/-- Witness for C10 (amended): on the empty history (no `start` yet, the AI
socket may not even be open), an `interruption` is sent to the carrier as
`clear` with a `null` `streamSid`, and an `audio` with non-empty payload as
`media` with a `null` `streamSid`. -/
theorem pre_start_sends_carry_null_sid_witness :
    lastStartSid ([] : List Event) = none ∧
    ("b64" : String).isEmpty = false ∧
    (step (run initialState []).1
        (Event.elevenLabsMsg (Frame.parsed ElevenLabsMessage.interruption))
      = ((run initialState []).1, [Output.toTwilio (CarrierOut.clear none)]) ∧
    step (run initialState []).1
        (Event.elevenLabsMsg (Frame.parsed (ElevenLabsMessage.audio (some "b64"))))
      = ((run initialState []).1,
         [Output.toTwilio (CarrierOut.media none "b64")])) :=
  ⟨rfl, rfl, pre_start_sends_carry_null_sid [] rfl "b64" rfl⟩

end CallBot
